import Mathlib

/-!
Verification development for the CNPJ enrichment batch script
(`scriptpython.py`).  The script reads a CSV table, normalizes a CNPJ
identifier per row, queries a remote lookup API with rate limiting and
retry, flattens the JSON response and writes the joined table back.

The embedding below translates each function of the source into a pure
Lean function.  External effects are made explicit:
  * HTTP attempts are driven by an oracle `Nat → AttemptOutcome` giving,
    for each attempt index, either a raised network exception or an HTTP
    response (status code plus optionally parsed JSON body).
  * `time.sleep` calls are recorded in traces, and the wall clock is a
    rational number threaded through the drivers.
  * DataFrame cells are `Option Json`: `none` models a Python `None`
    (as produced by `row.get` on a missing column, or stored by the
    script itself), while a missing/empty CSV cell read back by pandas
    is the float NaN, modelled as the value `Json.nan` — which, like
    Python's `bool(float("nan"))`, is truthy.  Python truthiness of
    cells is `cellFalsy`.
-/

set_option autoImplicit false

/-- A scalar or structured value held in a DataFrame cell or a parsed
JSON document: the JSON values producible by `response.json()`, plus
`nan`, the float NaN that pandas stores for a missing/empty CSV cell
(`float("nan")` is truthy in Python and `pd.isna` on it is true). -/
inductive Json where
  | null
  | nan
  | bool (b : Bool)
  | num (n : Int)
  | str (s : String)
  | arr (elems : List Json)
  | obj (fields : List (String × Json))

/-- One DataFrame cell: `none` models a Python `None` (a missing column
under `row.get`, or a `None` stored by the script); an empty CSV cell
read back by pandas is `some Json.nan`, not `none`. -/
abbrev Cell := Option Json

/-- One DataFrame row: an association list from column name to cell. -/
abbrev Row := List (String × Cell)

/-- A DataFrame: the header together with the rows (cells are looked up
by column name inside each row). -/
structure Table where
  columns : List String
  rows : List Row

/-- Reading a cell of a row; a missing column reads as an absent value. -/
def getCell : Row → String → Cell
  | [], _ => none
  | (k2, v) :: rest, k => if k2 = k then v else getCell rest k

/-- Writing a cell of a row (`df.at[idx, col] = val` on one row):
overwrite the binding when the column exists, append it otherwise. -/
def setCell : Row → String → Cell → Row
  | [], k, v => [(k, v)]
  | (k2, v2) :: rest, k, v =>
    if k2 = k then (k, v) :: rest else (k2, v2) :: setCell rest k v

/-- Python truthiness of a cell value (`bool(x)`); note that
`bool(float("nan"))` is `True`, so `nan` is not falsy. -/
def jsonFalsy : Json → Bool
  | .null => true
  | .nan => false
  | .bool b => !b
  | .num n => n == 0
  | .str s => s == ""
  | .arr l => l.isEmpty
  | .obj fs => fs.isEmpty

/-- Python truthiness of a cell: `None` and falsy values are falsy; a
NaN cell (`some Json.nan`) is truthy. -/
def cellFalsy : Cell → Bool
  | none => true
  | some j => jsonFalsy j

/-- Python `str(x)` for the scalar values the script stringifies.  The
script only ever stringifies strings, numbers, booleans and `None`;
containers get a fixed rendering. -/
def pyStr : Json → String
  | .null => "None"
  | .nan => "nan"
  | .bool true => "True"
  | .bool false => "False"
  | .num n => toString n
  | .str s => s
  | .arr _ => "<list>"
  | .obj _ => "<dict>"

/-- `astype(str)` on one cell: a missing value renders as `"nan"`. -/
def cellPyStr : Cell → String
  | none => "nan"
  | some j => pyStr j

/-- `x.get(key)` on a parsed JSON object. -/
def Json.getField : Json → String → Option Json
  | .obj fs, k => fs.lookup k
  | _, _ => none

/-- Python `x or {}` applied to an optional JSON value: absent or falsy
values are replaced by the empty object. -/
def jsonOrEmpty : Option Json → Json
  | none => Json.obj []
  | some j => if jsonFalsy j then Json.obj [] else j

/-! ## Configuration constants of the script -/

/-- Name of the CNPJ column in the input CSV (`CNPJ_COLUMN_NAME`). -/
def CNPJ_COLUMN_NAME : String := "cnpj_normalizadoapi"

/-- Limit of API requests per minute (`MAX_REQUESTS_PER_MINUTE`). -/
def MAX_REQUESTS_PER_MINUTE : Nat := 60

/-- Starting row index for the full run (`START_INDEX`). -/
def START_INDEX : Nat := 0

/-! ## Identifier normalizer -/

/-- `normalize_cnpj`: a value with `pd.isna` true (`None` or NaN)
normalizes to `None`; otherwise keep only the (ASCII decimal) digit
characters of `str(raw)` and return the digit string exactly when it
has 14 characters, `None` otherwise. -/
def normalize_cnpj (cnpj_raw : Cell) : Option String :=
  match cnpj_raw with
  | none => none
  | some Json.nan => none
  | some j =>
    let digits := String.mk ((pyStr j).data.filter Char.isDigit)
    if digits.length = 14 then some digits else none

/-- The column assignment `df["cnpj_normalizado"] = df[col].apply(normalize_cnpj)`
acting on one cell. -/
def cellNormalize (c : Cell) : Cell :=
  Option.map Json.str (normalize_cnpj c)

/-! ## Rate limiter -/

/-- Result of one `sleep_if_necessary` call, together with the sleep it
performed and the wall clock afterwards. -/
structure LimiterResult where
  request_count : Nat
  window_start : ℚ
  slept : ℚ
  now_after : ℚ

/-- `sleep_if_necessary(request_count, start_window)` at wall-clock time
`now`: when the per-minute cap is reached, sleep out the rest of the
60-second window (if any remains) and reset the counter and window;
otherwise return both values unchanged.  `window_start` in the result is
the `time.time()` taken after the optional sleep. -/
def sleep_if_necessary (request_count : Nat) (start_window : ℚ) (now : ℚ) :
    LimiterResult :=
  let elapsed := now - start_window
  if MAX_REQUESTS_PER_MINUTE ≤ request_count then
    if elapsed < 60 then
      let wait_time := 60 - elapsed
      ⟨0, now + wait_time, wait_time, now + wait_time⟩
    else
      ⟨0, now, 0, now⟩
  else
    ⟨request_count, start_window, 0, now⟩

/-! ## Lookup client -/

/-- What one `requests.get` attempt produces: either a raised
`RequestException` (network/DNS/timeout) carrying its description, or an
HTTP response with a status code and the result of `response.json()`
(`none` when the body fails to parse). -/
inductive AttemptOutcome where
  | netError (msg : String)
  | response (status : Nat) (body : Option Json)

/-- The uniform result envelope returned by `fetch_cnpj_data`. -/
structure ApiResult where
  success : Bool
  error : Option String
  http_status : Option Nat
  data : Option Json

/-- A `fetch_cnpj_data` call together with its observable trace: the
`time.sleep` durations performed (seconds) and the number of HTTP
attempts issued. -/
structure FetchTrace where
  result : ApiResult
  sleeps : List Nat
  attemptsMade : Nat

/-- Rendering of `last_exception_str` in the exhaustion message:
`None` when no attempt ever raised. -/
def renderLastExc : Option String → String
  | none => "None"
  | some s => s

/-- The retry loop of `fetch_cnpj_data`: `attempt` is the current loop
index, the second argument the number of remaining iterations, the third
the last exception description seen so far. -/
def fetchLoop (oracle : Nat → AttemptOutcome) :
    Nat → Nat → Option String → FetchTrace
  | _, 0, lastExc =>
    ⟨⟨false, some ("request_exception: " ++ renderLastExc lastExc),
      none, none⟩, [], 0⟩
  | attempt, remaining + 1, _lastExc =>
    match oracle attempt with
    | .response st body =>
      if st == 200 && body.isSome then
        ⟨⟨true, none, some 200, body⟩, [], 1⟩
      else
        ⟨⟨false, some ("http_error_" ++ toString st), some st, body⟩,
          [], 1⟩
    | .netError msg =>
      let rest := fetchLoop oracle (attempt + 1) remaining (some msg)
      ⟨rest.result, 2 ^ attempt :: rest.sleeps, rest.attemptsMade + 1⟩

/-- `fetch_cnpj_data(cnpj, max_retries=5)`: up to `max_retries` attempts;
a network error sleeps `2 ** attempt` seconds and retries; any HTTP
response returns immediately (success envelope for a 200 with parseable
body, failure envelope carrying the status and parsed body otherwise);
exhaustion returns a failure with the last exception and no status. -/
def fetch_cnpj_data (oracle : Nat → AttemptOutcome)
    (max_retries : Nat := 5) : FetchTrace :=
  fetchLoop oracle 0 max_retries none

/-! ## Response flattener -/

/-- `extract_fields(api_result)`: flattens the envelope and the nested
payload into the output columns, in the order the source dict lists
them.  `index_origem`, `cnpj_original` and `cnpj_normalizado` are set by
the callers afterwards. -/
def extract_fields (api_result : ApiResult) : List (String × Cell) :=
  let data := jsonOrEmpty api_result.data
  let company := jsonOrEmpty (data.getField "company")
  let address := jsonOrEmpty (data.getField "address")
  let main_activity := jsonOrEmpty (data.getField "mainActivity")
  let size := jsonOrEmpty (company.getField "size")
  [ ("api_success", some (Json.bool api_result.success)),
    ("api_http_status", api_result.http_status.map (fun n => Json.num n)),
    ("api_error", api_result.error.map Json.str),
    ("razao_social", company.getField "name"),
    ("nome_fantasia", company.getField "alias"),
    ("data_abertura", company.getField "openingDate"),
    ("natureza_juridica", company.getField "legalNature"),
    ("porte_id", size.getField "id"),
    ("porte_sigla", size.getField "acronym"),
    ("porte_descricao", size.getField "text"),
    ("cnae_principal_codigo", main_activity.getField "id"),
    ("cnae_principal_descricao", main_activity.getField "text"),
    ("endereco_logradouro", address.getField "street"),
    ("endereco_numero", address.getField "number"),
    ("endereco_complemento", address.getField "complement"),
    ("endereco_bairro", address.getField "district"),
    ("endereco_cidade", address.getField "city"),
    ("endereco_uf", address.getField "state"),
    ("endereco_cep", address.getField "zip"),
    ("situacao_cadastral", data.getField "status"),
    ("data_situacao_cadastral", data.getField "statusDate"),
    ("matriz_ou_filial", data.getField "headquarterOrBranch") ]

/-! ## Call-site 429 retry loop -/

/-- One pass through the drivers' `while True` loop around
`fetch_cnpj_data`, with its observable trace: the envelope kept, the
number of `fetch_cnpj_data` calls, the number of 60-second waits, all
sleeps in order, and the total HTTP attempts issued. -/
structure CallSiteTrace where
  result : ApiResult
  fetchCalls : Nat
  sleeps60 : Nat
  sleeps : List Nat
  attemptsMade : Nat

/-- The `while True` loop with the counter `attempts_429`: the fuel is
`3 - attempts_429`.  On a 429 with `attempts_429 + 1 < 3` the driver
sleeps 60 seconds and retries the same identifier with a fresh
`fetch_cnpj_data` call; otherwise (three consecutive 429s, or any other
status) it keeps the current envelope and leaves the loop. -/
def retry429 (oracle : Nat → Nat → AttemptOutcome) :
    Nat → Nat → CallSiteTrace
  | callIdx, 0 =>
    let ft := fetch_cnpj_data (oracle callIdx) 5
    ⟨ft.result, 1, 0, ft.sleeps, ft.attemptsMade⟩
  | callIdx, 1 =>
    let ft := fetch_cnpj_data (oracle callIdx) 5
    ⟨ft.result, 1, 0, ft.sleeps, ft.attemptsMade⟩
  | callIdx, fuel + 2 =>
    let ft := fetch_cnpj_data (oracle callIdx) 5
    if ft.result.http_status = some 429 then
      let rest := retry429 oracle (callIdx + 1) (fuel + 1)
      ⟨rest.result, rest.fetchCalls + 1, rest.sleeps60 + 1,
        ft.sleeps ++ 60 :: rest.sleeps, ft.attemptsMade + rest.attemptsMade⟩
    else
      ⟨ft.result, 1, 0, ft.sleeps, ft.attemptsMade⟩

/-- The drivers' 429 retry policy around the lookup client: start with
`attempts_429 = 0`, i.e. fuel 3. -/
def lookup_with_429 (oracle : Nat → Nat → AttemptOutcome) : CallSiteTrace :=
  retry429 oracle 0 3

/-- Total seconds slept by one call-site loop. -/
def sleepTotal (t : CallSiteTrace) : Nat := t.sleeps.sum

/-! ## Batch driver: full run (`main`) -/

/-- State of the full run's row loop: the accumulated `resultados`
entries (keyed by `index_origem`), the rate-limiter state, the wall
clock, and the observable HTTP trace totals. -/
structure LoopState where
  resultados : List (Nat × Row)
  request_count : Nat
  window_start : ℚ
  clock : ℚ
  httpRequests : Nat
  fetchCalls : Nat

/-- The record appended for a row whose CNPJ is invalid or missing
(`index_origem` being kept separately as the key). -/
def invalid_record (cnpj_raw cnpj : Cell) : Row :=
  [ ("cnpj_original", cnpj_raw),
    ("cnpj_normalizado", cnpj),
    ("api_success", some (Json.bool false)),
    ("api_http_status", none),
    ("api_error", some (Json.str "cnpj_invalido")) ]

/-- One iteration of `main`'s row loop: an invalid CNPJ is recorded
immediately and the loop continues; otherwise rate-limit, run the 429
retry loop, bump the request counter once, flatten the envelope, append
the record, and pause 0.5 seconds. -/
def mainStep (oracle : Nat → Nat → Nat → AttemptOutcome)
    (st : LoopState) (idx : Nat) (row : Row) : LoopState :=
  let cnpj_raw := getCell row CNPJ_COLUMN_NAME
  let cnpj := getCell row "cnpj_normalizado"
  if cellFalsy cnpj then
    { st with resultados := st.resultados ++ [(idx, invalid_record cnpj_raw cnpj)] }
  else
    let lim := sleep_if_necessary st.request_count st.window_start st.clock
    let ct := lookup_with_429 (oracle idx)
    let fields := extract_fields ct.result
      ++ [("cnpj_original", cnpj_raw), ("cnpj_normalizado", cnpj)]
    { resultados := st.resultados ++ [(idx, fields)],
      request_count := lim.request_count + 1,
      window_start := lim.window_start,
      clock := lim.now_after + (sleepTotal ct : ℚ) + 1 / 2,
      httpRequests := st.httpRequests + ct.attemptsMade,
      fetchCalls := st.fetchCalls + ct.fetchCalls }

/-- `for idx, row in df.iloc[START_INDEX:].iterrows(): ...` -/
def runRows (oracle : Nat → Nat → Nat → AttemptOutcome) :
    LoopState → List (Nat × Row) → LoopState
  | st, [] => st
  | st, (idx, row) :: rest => runRows oracle (mainStep oracle st idx row) rest

/-- Row enumeration keeping the original positional index. -/
def enumFrom (i : Nat) : List Row → List (Nat × Row)
  | [] => []
  | r :: rs => (i, r) :: enumFrom (i + 1) rs

/-- `df["cnpj_normalizado"] = df[CNPJ_COLUMN_NAME].apply(normalize_cnpj)`. -/
def addNormalized (t : Table) : Table :=
  { columns :=
      if "cnpj_normalizado" ∈ t.columns then t.columns
      else t.columns ++ ["cnpj_normalizado"],
    rows := t.rows.map (fun r =>
      setCell r "cnpj_normalizado" (cellNormalize (getCell r CNPJ_COLUMN_NAME))) }

/-- `df.join(..., rsuffix="api")`: a column of the right frame whose
name collides with a left-frame column is renamed with the suffix. -/
def renameForJoin (cols : List String) (r : Row) : Row :=
  r.map (fun kv => (if kv.1 ∈ cols then kv.1 ++ "api" else kv.1, kv.2))

/-- Left join of the source rows with the accumulated records by row
index: every source row is kept, in order, extended by the cells of the
matching record when one exists. -/
def joinRows (cols : List String) (res : List (Nat × Row)) :
    Nat → List Row → List Row
  | _, [] => []
  | i, r :: rs =>
    (r ++ (match List.lookup i res with
           | some e => renameForJoin cols e
           | none => [])) :: joinRows cols res (i + 1) rs

/-- `df.join(df_resultados.set_index("index_origem"), how="left", rsuffix="api")`. -/
def joinTables (t : Table) (res : List (Nat × Row)) : Table :=
  { columns := t.columns, rows := joinRows t.columns res 0 t.rows }

/-- Inputs of one `main()` run: the input file (absent when missing on
disk), the HTTP oracle (indexed by row index, call-site iteration and
attempt), and the initial wall clock. -/
structure MainEnv where
  inputFile : Option Table
  oracle : Nat → Nat → Nat → AttemptOutcome
  t0 : ℚ

/-- Observable outcome of a driver run: the table written (absent when
the run raised), the exception class when it raised, and the HTTP trace
totals plus the final value of `request_count`. -/
structure RunResult where
  table : Option Table
  errorMsg : Option String
  httpRequests : Nat
  fetchCalls : Nat
  finalCount : Nat

/-- The embedding of `main()` (named `mainRun` since Lean reserves `main`): abort when the input file is missing or the CNPJ column is
absent; otherwise normalize, loop over the rows from `START_INDEX`,
left-join the accumulated records and write the result.  With an empty
`resultados` list, `pd.DataFrame([]).set_index("index_origem")` raises a
`KeyError` (the empty frame has no columns), so no output is written. -/
def mainRun (env : MainEnv) : RunResult :=
  match env.inputFile with
  | none => ⟨none, some "FileNotFoundError", 0, 0, 0⟩
  | some t =>
    if CNPJ_COLUMN_NAME ∈ t.columns then
      let df := addNormalized t
      let st0 : LoopState := ⟨[], 0, env.t0, env.t0, 0, 0⟩
      let fin := runRows env.oracle st0 ((enumFrom 0 df.rows).drop START_INDEX)
      if fin.resultados.isEmpty then
        ⟨none, some "KeyError", fin.httpRequests, fin.fetchCalls,
          fin.request_count⟩
      else
        ⟨some (joinTables df fin.resultados), none, fin.httpRequests,
          fin.fetchCalls, fin.request_count⟩
    else ⟨none, some "ValueError", 0, 0, 0⟩

/-! ## Batch driver: retry-only run (`reprocess_failed`) -/

/-- `str.lower()`, character by character. -/
def strLower (s : String) : String :=
  String.mk (s.data.map Char.toLower)

/-- `df_final["api_success"].astype(str).str.lower() != "true"` on one
row: the retry mask. -/
def selectedForRetry (r : Row) : Bool :=
  !(strLower (cellPyStr (getCell r "api_success")) == "true")

/-- The in-place update `reprocess_failed` applies to one selected row:
an invalid/missing CNPJ just rewrites the two status cells; otherwise
the flattened fields of the 429-retry-loop envelope overwrite the row's
cells, and the two CNPJ columns are rewritten for consistency. -/
def reprocessRow (oracle : Nat → Nat → AttemptOutcome) (r : Row) : Row :=
  let cnpj_raw := getCell r CNPJ_COLUMN_NAME
  let cnpj := getCell r "cnpj_normalizado"
  if cellFalsy cnpj then
    setCell (setCell r "api_success" (some (Json.bool false)))
      "api_error" (some (Json.str "cnpj_invalido_retry"))
  else
    let ct := lookup_with_429 oracle
    let r1 := (extract_fields ct.result).foldl
      (fun acc kv => setCell acc kv.1 kv.2) r
    setCell (setCell r1 "cnpj_original" cnpj_raw) "cnpj_normalizado" cnpj

/-- State of the retry loop: the table rows being updated in place, the
rate-limiter state, the wall clock and the HTTP trace totals. -/
structure ReprocState where
  rows : List Row
  request_count : Nat
  window_start : ℚ
  clock : ℚ
  httpRequests : Nat
  fetchCalls : Nat

/-- One iteration of the retry loop at index `idx`: read the current row
of `df_final`, update it in place via `reprocessRow`; an invalid CNPJ
touches no other state, otherwise rate-limit, run the 429 loop and bump
the counter once (this driver has no 0.5-second pause). -/
def reprocStep (oracle : Nat → Nat → Nat → AttemptOutcome)
    (st : ReprocState) (idx : Nat) : ReprocState :=
  let row := st.rows.getD idx []
  let newRows := st.rows.set idx (reprocessRow (oracle idx) row)
  if cellFalsy (getCell row "cnpj_normalizado") then
    { st with rows := newRows }
  else
    let lim := sleep_if_necessary st.request_count st.window_start st.clock
    let ct := lookup_with_429 (oracle idx)
    { rows := newRows,
      request_count := lim.request_count + 1,
      window_start := lim.window_start,
      clock := lim.now_after + (sleepTotal ct : ℚ),
      httpRequests := st.httpRequests + ct.attemptsMade,
      fetchCalls := st.fetchCalls + ct.fetchCalls }

/-- `for i, idx in enumerate(df_retry.index, start=1): ...` -/
def runRetry (oracle : Nat → Nat → Nat → AttemptOutcome) :
    ReprocState → List Nat → ReprocState
  | st, [] => st
  | st, idx :: rest => runRetry oracle (reprocStep oracle st idx) rest

/-- Inputs of one `reprocess_failed()` run: the previously produced
output file (absent when missing on disk), the HTTP oracle (indexed by
row index, call-site iteration and attempt), and the initial clock. -/
structure ReprocEnv where
  outputFile : Option Table
  oracle : Nat → Nat → Nat → AttemptOutcome
  t0 : ℚ

/-- `reprocess_failed()`: abort when the output file is missing or the
`api_success` column is absent; otherwise select the indices whose
success flag is not `"true"` (case-insensitively, on the stringified
cell), reprocess exactly those rows in place, and rewrite the table.
When nothing is selected the function returns early and the file keeps
its previous content. -/
def reprocess_failed (env : ReprocEnv) : RunResult :=
  match env.outputFile with
  | none => ⟨none, some "FileNotFoundError", 0, 0, 0⟩
  | some t =>
    if "api_success" ∈ t.columns then
      let retryIdx := (List.range t.rows.length).filter
        (fun i => selectedForRetry (t.rows.getD i []))
      if retryIdx.isEmpty then
        ⟨some t, none, 0, 0, 0⟩
      else
        let fin := runRetry env.oracle ⟨t.rows, 0, env.t0, env.t0, 0, 0⟩ retryIdx
        ⟨some { t with rows := fin.rows }, none, fin.httpRequests,
          fin.fetchCalls, fin.request_count⟩
    else ⟨none, some "ValueError", 0, 0, 0⟩

/-! ## Helper lemmas about the lookup client -/

/-- The backoff sleep sequence `2^a, 2^(a+1), …` of length `n`. -/
def backoffFrom : Nat → Nat → List Nat
  | _, 0 => []
  | a, n + 1 => 2 ^ a :: backoffFrom (a + 1) n

lemma fetchLoop_all_net (oracle : Nat → AttemptOutcome) (msg : Nat → String) :
    ∀ (n attempt : Nat) (lastExc : Option String),
      (∀ j, j < n → oracle (attempt + j) = AttemptOutcome.netError (msg (attempt + j))) →
      fetchLoop oracle attempt n lastExc =
        ⟨⟨false,
          some ("request_exception: " ++
            renderLastExc (if n = 0 then lastExc else some (msg (attempt + n - 1)))),
          none, none⟩,
        backoffFrom attempt n, n⟩ := by
  intro n
  induction n with
  | zero =>
    intro attempt lastExc _
    simp [fetchLoop, backoffFrom]
  | succ m ih =>
    intro attempt lastExc h
    have h0 : oracle attempt = AttemptOutcome.netError (msg attempt) := by
      have := h 0 (Nat.succ_pos m); simpa using this
    have hrest := ih (attempt + 1) (some (msg attempt)) (fun j hj => by
      have := h (j + 1) (Nat.succ_lt_succ hj)
      have harith : attempt + (j + 1) = attempt + 1 + j := by omega
      rwa [harith] at this)
    simp only [fetchLoop, h0, hrest, backoffFrom]
    cases m with
    | zero => simp
    | succ k =>
      have harith : attempt + 1 + (k + 1) - 1 = attempt + (k + 1 + 1) - 1 := by omega
      simp [harith]

lemma fetchLoop_response (oracle : Nat → AttemptOutcome) (msg : Nat → String) :
    ∀ (k attempt remaining : Nat) (lastExc : Option String) (st : Nat)
      (body : Option Json),
      k < remaining →
      (∀ j, j < k → oracle (attempt + j) = AttemptOutcome.netError (msg (attempt + j))) →
      oracle (attempt + k) = AttemptOutcome.response st body →
      fetchLoop oracle attempt remaining lastExc =
        ⟨if st == 200 && body.isSome then ⟨true, none, some 200, body⟩
          else ⟨false, some ("http_error_" ++ toString st), some st, body⟩,
        backoffFrom attempt k, k + 1⟩ := by
  intro k
  induction k with
  | zero =>
    intro attempt remaining lastExc st body hk _ hresp
    cases remaining with
    | zero => omega
    | succ r =>
      rw [Nat.add_zero] at hresp
      simp only [fetchLoop, hresp, backoffFrom]
      split <;> simp
  | succ m ih =>
    intro attempt remaining lastExc st body hk hpre hresp
    cases remaining with
    | zero => omega
    | succ r =>
      have h0 : oracle attempt = AttemptOutcome.netError (msg attempt) := by
        have := hpre 0 (Nat.succ_pos m); simpa using this
      have hrest := ih (attempt + 1) r (some (msg attempt)) st body (by omega)
        (fun j hj => by
          have := hpre (j + 1) (Nat.succ_lt_succ hj)
          have harith : attempt + (j + 1) = attempt + 1 + j := by omega
          rwa [harith] at this)
        (by
          have harith : attempt + (m + 1) = attempt + 1 + m := by omega
          rwa [harith] at hresp)
      simp only [fetchLoop, h0, hrest, backoffFrom]

lemma fetchLoop_success_status (oracle : Nat → AttemptOutcome) :
    ∀ (n attempt : Nat) (lastExc : Option String),
      (fetchLoop oracle attempt n lastExc).result.success = true →
      (fetchLoop oracle attempt n lastExc).result.http_status = some 200 := by
  intro n
  induction n with
  | zero => intro attempt lastExc h; simp [fetchLoop] at h
  | succ m ih =>
    intro attempt lastExc h
    revert h
    simp only [fetchLoop]
    cases houtcome : oracle attempt with
    | response st body =>
      by_cases hok : (st == 200 && body.isSome) = true
      · simp [hok]
      · simp [hok]
    | netError msg => exact ih (attempt + 1) (some msg)

/-! ## Claim C2 -/

/-- The digit-only restriction of a string, as the claim phrases it. -/
def stripDigits (s : String) : String :=
  String.mk (s.data.filter Char.isDigit)

/-- C2: normalization strips all non-digit characters of the raw value
and returns the digit string exactly when it is 14 characters long, and
the absent marker otherwise; an absent raw value normalizes to absent,
and any returned value is a 14-character digit string. -/
theorem C2_normalize_contract (s : String) :
    normalize_cnpj none = none
    ∧ ((stripDigits s).length = 14 →
        normalize_cnpj (some (Json.str s)) = some (stripDigits s))
    ∧ ((stripDigits s).length ≠ 14 →
        normalize_cnpj (some (Json.str s)) = none)
    ∧ (∀ d, normalize_cnpj (some (Json.str s)) = some d →
        d = stripDigits s ∧ d.length = 14 ∧ d.data.all Char.isDigit = true) := by
  refine ⟨rfl, ?_, ?_, ?_⟩
  · intro h
    simp [normalize_cnpj, pyStr, stripDigits] at h ⊢
    simp [h]
  · intro h
    simp [normalize_cnpj, pyStr, stripDigits] at h ⊢
    simp [h]
  · intro d hd
    simp only [normalize_cnpj, pyStr] at hd
    by_cases h : (String.mk (s.data.filter Char.isDigit)).length = 14
    · rw [if_pos h] at hd
      have hds : d = stripDigits s := by
        simpa [stripDigits] using hd.symm
      refine ⟨hds, ?_, ?_⟩
      · rw [hds]; simpa [stripDigits] using h
      · rw [hds]
        simp only [stripDigits, String.all, List.all_eq_true]
        intro c hc
        exact (List.mem_filter.mp hc).2
    · rw [if_neg h] at hd
      exact absurd hd (by simp)

/-- Witness for C2: the two example identifiers of the specification. -/
theorem C2_normalize_contract_witness :
    normalize_cnpj (some (Json.str "12.345.678/0001-95")) = some "12345678000195"
    ∧ normalize_cnpj (some (Json.str "123")) = none := by
  constructor
  · have h := (C2_normalize_contract "12.345.678/0001-95").2.1 (by decide)
    rw [h]; decide
  · exact (C2_normalize_contract "123").2.2.1 (by decide)

/-! ## Claim C3 -/

/-- C3: a transient network error is retried up to the configured
maximum of 5 attempts, sleeping `2^k` seconds after failed attempt `k`
(1s, 2s, 4s, …); if every attempt raises, the client returns a failure
envelope carrying the last exception's description and no HTTP status;
and with two network errors followed by a valid 200 response it returns
a success envelope after exactly 3 attempts with backoff sleeps 1s, 2s. -/
theorem C3_network_retry_backoff (oracle : Nat → AttemptOutcome)
    (msg : Nat → String) :
    ((∀ k, k < 5 → oracle k = AttemptOutcome.netError (msg k)) →
      fetch_cnpj_data oracle 5 =
        ⟨⟨false, some ("request_exception: " ++ msg 4), none, none⟩,
          [1, 2, 4, 8, 16], 5⟩)
    ∧ (∀ body : Json,
        oracle 0 = AttemptOutcome.netError (msg 0) →
        oracle 1 = AttemptOutcome.netError (msg 1) →
        oracle 2 = AttemptOutcome.response 200 (some body) →
        fetch_cnpj_data oracle 5 =
          ⟨⟨true, none, some 200, some body⟩, [1, 2], 3⟩) := by
  constructor
  · intro h
    have e := fetchLoop_all_net oracle msg 5 0 none
      (fun j hj => by simpa using h j hj)
    rw [fetch_cnpj_data, e]
    norm_num [renderLastExc, backoffFrom]
  · intro body h0 h1 h2
    have e := fetchLoop_response oracle msg 2 0 5 none 200 (some body)
      (by omega)
      (fun j hj => by
        interval_cases j
        · simpa using h0
        · simpa using h1)
      (by simpa using h2)
    rw [fetch_cnpj_data, e]
    norm_num [backoffFrom]

/-- Witness for C3: a concrete oracle failing all five attempts, and a
concrete oracle succeeding on the third. -/
theorem C3_network_retry_backoff_witness :
    fetch_cnpj_data (fun _ => AttemptOutcome.netError "dns failure") 5 =
      ⟨⟨false, some ("request_exception: " ++ "dns failure"), none, none⟩,
        [1, 2, 4, 8, 16], 5⟩
    ∧ fetch_cnpj_data
        (fun k => if k < 2 then AttemptOutcome.netError "timeout"
          else AttemptOutcome.response 200 (some (Json.obj []))) 5 =
      ⟨⟨true, none, some 200, some (Json.obj [])⟩, [1, 2], 3⟩ := by
  constructor
  · exact (C3_network_retry_backoff (fun _ => AttemptOutcome.netError "dns failure")
      (fun _ => "dns failure")).1 (fun k _ => rfl)
  · exact (C3_network_retry_backoff _ (fun _ => "timeout")).2 (Json.obj [])
      rfl rfl rfl

/-! ## Claim C4 -/

/-- C4: when an attempt receives an HTTP response whose status is not
200, or a 200 whose body fails to parse, the client returns immediately
with no further attempt and no backoff sleep beyond the ones already
performed for earlier network errors: the failure envelope carries that
HTTP status and the parsed payload (possibly absent). -/
theorem C4_http_failure_immediate (oracle : Nat → AttemptOutcome)
    (msg : Nat → String) (k st : Nat) (body : Option Json)
    (hk : k < 5)
    (hpre : ∀ j, j < k → oracle j = AttemptOutcome.netError (msg j))
    (hresp : oracle k = AttemptOutcome.response st body)
    (hfail : st ≠ 200 ∨ body = none) :
    fetch_cnpj_data oracle 5 =
      ⟨⟨false, some ("http_error_" ++ toString st), some st, body⟩,
        backoffFrom 0 k, k + 1⟩ := by
  have e := fetchLoop_response oracle msg k 0 5 none st body hk
    (fun j hj => by simpa using hpre j hj)
    (by simpa using hresp)
  rw [fetch_cnpj_data, e]
  have hcond : (st == 200 && body.isSome) = false := by
    rcases hfail with h | h
    · simp [h]
    · simp [h]
  rw [hcond]
  simp

/-- Witness for C4: a first-attempt 500 with an unparseable body returns
at once with one attempt and no sleep. -/
theorem C4_http_failure_immediate_witness :
    fetch_cnpj_data (fun _ => AttemptOutcome.response 500 none) 5 =
      ⟨⟨false, some ("http_error_" ++ toString 500), some 500, none⟩,
        backoffFrom 0 0, 0 + 1⟩ := by
  exact C4_http_failure_immediate (fun _ => AttemptOutcome.response 500 none)
    (fun _ => "") 0 500 none (by omega) (fun j hj => by omega) rfl
    (Or.inl (by omega))

/-! ## Claim C5 -/

/-- C5: when every lookup of the call-site loop comes back with HTTP
status 429, the driver performs exactly 3 lookup attempts for the row,
waits 60 seconds twice (between consecutive attempts), and keeps the
third attempt's failing envelope. -/
theorem C5_callsite_429_retry (oracle : Nat → Nat → AttemptOutcome)
    (h : ∀ c, c < 3 →
      (fetch_cnpj_data (oracle c) 5).result.http_status = some 429) :
    (lookup_with_429 oracle).fetchCalls = 3
    ∧ (lookup_with_429 oracle).sleeps60 = 2
    ∧ (lookup_with_429 oracle).result = (fetch_cnpj_data (oracle 2) 5).result
    ∧ (lookup_with_429 oracle).result.success = false := by
  have h0 := h 0 (by omega)
  have h1 := h 1 (by omega)
  have h2 := h 2 (by omega)
  have hfail : (fetch_cnpj_data (oracle 2) 5).result.success = false := by
    cases hb : (fetch_cnpj_data (oracle 2) 5).result.success with
    | false => rfl
    | true =>
      have := fetchLoop_success_status (oracle 2) 5 0 none hb
      rw [fetch_cnpj_data] at h2
      rw [this] at h2
      simp at h2
  have e : lookup_with_429 oracle = retry429 oracle 0 3 := rfl
  rw [e]
  simp only [retry429, h0, h1, if_pos]
  simp [hfail]

/-- Witness for C5: a concrete client returning HTTP 429 on every call. -/
theorem C5_callsite_429_retry_witness :
    (lookup_with_429 (fun _ _ => AttemptOutcome.response 429 none)).fetchCalls = 3
    ∧ (lookup_with_429 (fun _ _ => AttemptOutcome.response 429 none)).sleeps60 = 2
    ∧ (lookup_with_429 (fun _ _ => AttemptOutcome.response 429 none)).result
        = (fetch_cnpj_data ((fun _ _ => AttemptOutcome.response 429 none) 2) 5).result
    ∧ (lookup_with_429 (fun _ _ => AttemptOutcome.response 429 none)).result.success
        = false := by
  exact C5_callsite_429_retry (fun _ _ => AttemptOutcome.response 429 none)
    (fun c _ => rfl)

/-! ## Claim C6 -/

/-- C6: when the request counter has reached the per-minute cap, the
limiter sleeps out the remainder of the 60-second window since window
start (zero when the window already elapsed) and returns counter 0 with
the window start set to the current time after the sleep; otherwise it
returns immediately with counter and window start unchanged. -/
theorem C6_rate_limiter_contract (rc : Nat) (sw now : ℚ) :
    (MAX_REQUESTS_PER_MINUTE ≤ rc →
      sleep_if_necessary rc sw now =
        ⟨0, now + max 0 (60 - (now - sw)), max 0 (60 - (now - sw)),
          now + max 0 (60 - (now - sw))⟩)
    ∧ (rc < MAX_REQUESTS_PER_MINUTE →
      sleep_if_necessary rc sw now = ⟨rc, sw, 0, now⟩) := by
  constructor
  · intro h
    simp only [sleep_if_necessary, if_pos h]
    by_cases h2 : now - sw < 60
    · rw [if_pos h2]
      have hmax : max 0 (60 - (now - sw)) = 60 - (now - sw) :=
        max_eq_right (by linarith)
      rw [hmax]
    · rw [if_neg h2]
      have hmax : max 0 (60 - (now - sw)) = 0 :=
        max_eq_left (by linarith)
      rw [hmax]
      simp
  · intro h
    have hn : ¬ MAX_REQUESTS_PER_MINUTE ≤ rc := by omega
    simp [sleep_if_necessary, hn]

/-- Witness for C6: a full window at the cap sleeps 60 seconds and
resets; a counter below the cap changes nothing. -/
theorem C6_rate_limiter_contract_witness :
    sleep_if_necessary 60 0 0 =
      ⟨0, 0 + max 0 (60 - (0 - 0)), max 0 (60 - (0 - 0)),
        0 + max 0 (60 - (0 - 0))⟩
    ∧ sleep_if_necessary 5 0 30 = ⟨5, 0, 0, 30⟩ := by
  exact ⟨(C6_rate_limiter_contract 60 0 0).1 (by decide),
    (C6_rate_limiter_contract 5 0 30).2 (by decide)⟩

/-! ## Helper lemmas about the full-run driver -/

lemma mainStep_resultados_length (o : Nat → Nat → Nat → AttemptOutcome)
    (st : LoopState) (idx : Nat) (row : Row) :
    (mainStep o st idx row).resultados.length = st.resultados.length + 1 := by
  simp only [mainStep]
  split <;> simp

lemma runRows_resultados_length (o : Nat → Nat → Nat → AttemptOutcome) :
    ∀ (l : List (Nat × Row)) (st : LoopState),
      (runRows o st l).resultados.length = st.resultados.length + l.length := by
  intro l
  induction l with
  | nil => intro st; simp [runRows]
  | cons p rest ih =>
    intro st
    cases p with
    | mk idx row =>
      simp only [runRows]
      rw [ih, mainStep_resultados_length]
      simp
      omega

lemma enumFrom_length : ∀ (l : List Row) (i : Nat), (enumFrom i l).length = l.length := by
  intro l
  induction l with
  | nil => intro i; simp [enumFrom]
  | cons r rs ih => intro i; simp [enumFrom, ih]

lemma joinRows_length (cols : List String) (res : List (Nat × Row)) :
    ∀ (rs : List Row) (i : Nat), (joinRows cols res i rs).length = rs.length := by
  intro rs
  induction rs with
  | nil => intro i; simp [joinRows]
  | cons r rest ih => intro i; simp [joinRows, ih]

lemma joinRows_getD (cols : List String) (res : List (Nat × Row)) :
    ∀ (rs : List Row) (i j : Nat), j < rs.length →
      ∃ extra, (joinRows cols res i rs).getD j [] = rs.getD j [] ++ extra := by
  intro rs
  induction rs with
  | nil => intro i j hj; simp at hj
  | cons r rest ih =>
    intro i j hj
    cases j with
    | zero =>
      refine ⟨(match List.lookup i res with
        | some e => renameForJoin cols e
        | none => []), ?_⟩
      simp [joinRows]
    | succ m =>
      simpa [joinRows] using ih (i + 1) m (by simpa using hj)

lemma getD_map_row (f : Row → Row) :
    ∀ (l : List Row) (j : Nat), j < l.length →
      (l.map f).getD j [] = f (l.getD j []) := by
  intro l
  induction l with
  | nil => intro j hj; simp at hj
  | cons r rs ih =>
    intro j hj
    cases j with
    | zero => simp
    | succ m => simpa using ih m (by simpa using hj)

/-! ## Claim C1 -/

/-- Counterexample for C1: on an input table that exists, has the CNPJ
column, and has zero rows, the full run writes no output table at all
(with an empty `resultados`, `pd.DataFrame([]).set_index("index_origem")`
raises a `KeyError`), instead of an output with zero rows. -/
theorem C1_empty_table_counterexample :
    (mainRun ⟨some ⟨[CNPJ_COLUMN_NAME], []⟩,
        fun _ _ _ => AttemptOutcome.netError "boom", 0⟩).table = none
    ∧ (mainRun ⟨some ⟨[CNPJ_COLUMN_NAME], []⟩,
        fun _ _ _ => AttemptOutcome.netError "boom", 0⟩).errorMsg
        = some "KeyError" := ⟨rfl, rfl⟩

/-- C1 (amended to nonempty tables): for every input table with at least
one row, the full run writes an output table with exactly one row per
input row, in the same order — row `i` of the output extends row `i` of
the source (with its normalized-identifier column set) — regardless of
per-row lookup success or failure. -/
theorem C1_row_count_order_preserved (env : MainEnv) (t : Table)
    (hf : env.inputFile = some t)
    (hc : CNPJ_COLUMN_NAME ∈ t.columns)
    (hne : t.rows ≠ []) :
    ∃ out, (mainRun env).table = some out
      ∧ out.rows.length = t.rows.length
      ∧ ∀ i, i < t.rows.length →
          ∃ extra, out.rows.getD i [] =
            setCell (t.rows.getD i []) "cnpj_normalizado"
              (cellNormalize (getCell (t.rows.getD i []) CNPJ_COLUMN_NAME))
              ++ extra := by
  have hrows : (addNormalized t).rows = t.rows.map (fun r =>
      setCell r "cnpj_normalizado" (cellNormalize (getCell r CNPJ_COLUMN_NAME))) := rfl
  have hlenfin : (runRows env.oracle ⟨[], 0, env.t0, env.t0, 0, 0⟩
      ((enumFrom 0 (addNormalized t).rows).drop START_INDEX)).resultados.length
      = t.rows.length := by
    rw [runRows_resultados_length]
    simp [START_INDEX, enumFrom_length, hrows]
  have hfin_ne : (runRows env.oracle ⟨[], 0, env.t0, env.t0, 0, 0⟩
      ((enumFrom 0 (addNormalized t).rows).drop START_INDEX)).resultados ≠ [] := by
    intro hnil
    rw [hnil] at hlenfin
    exact hne (List.length_eq_zero.mp hlenfin.symm)
  have hfin_empty : (runRows env.oracle ⟨[], 0, env.t0, env.t0, 0, 0⟩
      ((enumFrom 0 (addNormalized t).rows).drop START_INDEX)).resultados.isEmpty
      = false := by
    cases h : (runRows env.oracle ⟨[], 0, env.t0, env.t0, 0, 0⟩
      ((enumFrom 0 (addNormalized t).rows).drop START_INDEX)).resultados with
    | nil => exact absurd h hfin_ne
    | cons a l => simp [h]
  have htable : (mainRun env).table = some (joinTables (addNormalized t)
      (runRows env.oracle ⟨[], 0, env.t0, env.t0, 0, 0⟩
        ((enumFrom 0 (addNormalized t).rows).drop START_INDEX)).resultados) := by
    simp only [mainRun, hf, hc, if_true, hfin_empty, Bool.false_eq_true, if_false]
  refine ⟨_, htable, ?_, ?_⟩
  · simp only [joinTables, joinRows_length, hrows, List.length_map]
  · intro i hi
    have hmaplen : i < (addNormalized t).rows.length := by
      simpa [hrows] using hi
    obtain ⟨extra, hex⟩ := joinRows_getD (addNormalized t).columns
      (runRows env.oracle ⟨[], 0, env.t0, env.t0, 0, 0⟩
        ((enumFrom 0 (addNormalized t).rows).drop START_INDEX)).resultados
      (addNormalized t).rows 0 i hmaplen
    refine ⟨extra, ?_⟩
    have hrow : (addNormalized t).rows.getD i [] =
        setCell (t.rows.getD i []) "cnpj_normalizado"
          (cellNormalize (getCell (t.rows.getD i []) CNPJ_COLUMN_NAME)) := by
      rw [hrows, getD_map_row _ t.rows i hi]
    calc (joinTables (addNormalized t) _).rows.getD i []
        = (addNormalized t).rows.getD i [] ++ extra := hex
      _ = _ := by rw [hrow]

/-- Witness for C1: a one-row table runs to an output with one row. -/
theorem C1_row_count_order_preserved_witness :
    ∃ out, (mainRun ⟨some ⟨["cnpj_normalizadoapi"],
        [[("cnpj_normalizadoapi", some (Json.str "123"))]]⟩,
        fun _ _ _ => AttemptOutcome.netError "boom", 0⟩).table = some out
      ∧ out.rows.length = 1 := by
  obtain ⟨out, h1, h2, _⟩ := C1_row_count_order_preserved
    ⟨some ⟨["cnpj_normalizadoapi"], [[("cnpj_normalizadoapi", some (Json.str "123"))]]⟩,
      fun _ _ _ => AttemptOutcome.netError "boom", 0⟩
    ⟨["cnpj_normalizadoapi"], [[("cnpj_normalizadoapi", some (Json.str "123"))]]⟩
    rfl (by simp [CNPJ_COLUMN_NAME]) (by simp)
  exact ⟨out, h1, h2⟩

/-! ## Helper lemmas about the retry-only driver -/

lemma getD_set_self : ∀ (l : List Row) (i : Nat) (v : Row),
    i < l.length → (l.set i v).getD i [] = v := by
  intro l
  induction l with
  | nil => intro i v hi; simp at hi
  | cons r rs ih =>
    intro i v hi
    cases i with
    | zero => simp
    | succ m => simpa using ih m v (by simpa using hi)

lemma getD_set_ne : ∀ (l : List Row) (i j : Nat) (v : Row),
    i ≠ j → (l.set i v).getD j [] = l.getD j [] := by
  intro l
  induction l with
  | nil => intro i j v _; simp
  | cons r rs ih =>
    intro i j v hne
    cases i with
    | zero =>
      cases j with
      | zero => exact absurd rfl hne
      | succ m => simp
    | succ n =>
      cases j with
      | zero => simp
      | succ m => simpa using ih n m v (fun h => hne (by rw [h]))

lemma reprocStep_rows (o : Nat → Nat → Nat → AttemptOutcome)
    (st : ReprocState) (idx : Nat) :
    (reprocStep o st idx).rows =
      st.rows.set idx (reprocessRow (o idx) (st.rows.getD idx [])) := by
  simp only [reprocStep]
  split <;> rfl

lemma reprocStep_rows_length (o : Nat → Nat → Nat → AttemptOutcome)
    (st : ReprocState) (idx : Nat) :
    (reprocStep o st idx).rows.length = st.rows.length := by
  rw [reprocStep_rows]; simp

lemma runRetry_rows_length (o : Nat → Nat → Nat → AttemptOutcome) :
    ∀ (l : List Nat) (st : ReprocState),
      (runRetry o st l).rows.length = st.rows.length := by
  intro l
  induction l with
  | nil => intro st; rfl
  | cons a rest ih =>
    intro st
    rw [runRetry, ih, reprocStep_rows_length]

lemma runRetry_rows_spec (o : Nat → Nat → Nat → AttemptOutcome) :
    ∀ (l : List Nat) (st : ReprocState), l.Nodup →
      (∀ j, j ∉ l → (runRetry o st l).rows.getD j [] = st.rows.getD j [])
      ∧ (∀ i ∈ l, i < st.rows.length →
          (runRetry o st l).rows.getD i [] =
            reprocessRow (o i) (st.rows.getD i [])) := by
  intro l
  induction l with
  | nil =>
    intro st _
    exact ⟨fun j _ => rfl, fun i hi => absurd hi (List.not_mem_nil i)⟩
  | cons a rest ih =>
    intro st hnd
    have hnotin : a ∉ rest := (List.nodup_cons.mp hnd).1
    have hndrest : rest.Nodup := (List.nodup_cons.mp hnd).2
    have hstep := reprocStep_rows o st a
    obtain ⟨ihnot, ihin⟩ := ih (reprocStep o st a) hndrest
    constructor
    · intro j hj
      have hjne : j ≠ a := fun h => hj (h ▸ List.mem_cons_self a rest)
      have hjrest : j ∉ rest := fun h => hj (List.mem_cons_of_mem a h)
      rw [runRetry, ihnot j hjrest, hstep,
        getD_set_ne _ a j _ (fun h => hjne h.symm)]
    · intro i hi hlen
      rcases List.mem_cons.mp hi with h | h
      · subst h
        rw [runRetry, ihnot i hnotin, hstep, getD_set_self _ i _ hlen]
      · have hne : i ≠ a := fun he => hnotin (he ▸ h)
        have hlen2 : i < (reprocStep o st a).rows.length := by
          rw [reprocStep_rows_length]; exact hlen
        rw [runRetry, ihin i h hlen2, hstep,
          getD_set_ne _ a i _ (fun he => hne he.symm)]

/-! ## Claim C9 -/

/-- C9: a retry-only run over a table with the success-flag column
re-processes exactly the rows whose flag is not `"true"`, overwriting
their cells in place via the per-record sequence, and leaves every other
row identical; row count, row order and the header are preserved. -/
theorem C9_retry_only_frame (env : ReprocEnv) (t : Table)
    (hf : env.outputFile = some t)
    (hc : "api_success" ∈ t.columns) :
    ∃ out, (reprocess_failed env).table = some out
      ∧ out.columns = t.columns
      ∧ out.rows.length = t.rows.length
      ∧ (∀ i, i < t.rows.length →
          selectedForRetry (t.rows.getD i []) = false →
          out.rows.getD i [] = t.rows.getD i [])
      ∧ (∀ i, i < t.rows.length →
          selectedForRetry (t.rows.getD i []) = true →
          out.rows.getD i [] = reprocessRow (env.oracle i) (t.rows.getD i [])) := by
  have hnd : ((List.range t.rows.length).filter
      (fun i => selectedForRetry (t.rows.getD i []))).Nodup :=
    (List.nodup_range t.rows.length).filter _
  have hmem : ∀ i, i ∈ (List.range t.rows.length).filter
      (fun i => selectedForRetry (t.rows.getD i []))
      ↔ i < t.rows.length ∧ selectedForRetry (t.rows.getD i []) = true := by
    intro i
    rw [List.mem_filter, List.mem_range]
  by_cases hemp : ((List.range t.rows.length).filter
      (fun i => selectedForRetry (t.rows.getD i []))).isEmpty
  · refine ⟨t, ?_, rfl, rfl, fun i _ _ => rfl, fun i hi hsel => ?_⟩
    · simp only [reprocess_failed, hf, hc, if_true, hemp]
    · have : i ∈ (List.range t.rows.length).filter
          (fun i => selectedForRetry (t.rows.getD i [])) :=
        (hmem i).mpr ⟨hi, hsel⟩
      rw [List.isEmpty_iff] at hemp
      rw [hemp] at this
      exact absurd this (List.not_mem_nil i)
  · obtain ⟨hnot, hin⟩ := runRetry_rows_spec env.oracle
      ((List.range t.rows.length).filter
        (fun i => selectedForRetry (t.rows.getD i [])))
      ⟨t.rows, 0, env.t0, env.t0, 0, 0⟩ hnd
    have hempf : ((List.range t.rows.length).filter
        (fun i => selectedForRetry (t.rows.getD i []))).isEmpty = false := by
      revert hemp
      cases ((List.range t.rows.length).filter
        (fun i => selectedForRetry (t.rows.getD i []))).isEmpty <;> simp
    have htab : (reprocess_failed env).table =
        some { t with rows := (runRetry env.oracle ⟨t.rows, 0, env.t0, env.t0, 0, 0⟩
          ((List.range t.rows.length).filter
            (fun i => selectedForRetry (t.rows.getD i [])))).rows } := by
      simp only [reprocess_failed, hf, hc, if_true, hempf, Bool.false_eq_true,
        if_false]
    refine ⟨_, htab, rfl, ?_, ?_, ?_⟩
    · exact runRetry_rows_length env.oracle _ _
    · intro i hi hsel
      refine hnot i (fun hmem2 => ?_)
      have hmem3 := ((hmem i).mp hmem2).2
      rw [hsel] at hmem3
      exact Bool.false_ne_true hmem3
    · intro i hi hsel
      exact hin i ((hmem i).mpr ⟨hi, hsel⟩) hi

/-- Witness for C9: a two-row table where only the second row has
`api_success` different from `"true"`; the first row is untouched and
the second is rewritten by the per-record sequence. -/
theorem C9_retry_only_frame_witness :
    ∃ out,
      (reprocess_failed ⟨some ⟨["api_success", "cnpj_normalizado"],
          [[("api_success", some (Json.str "True"))],
           [("api_success", some (Json.str "False")),
            ("cnpj_normalizado", some (Json.str "12345678000195"))]]⟩,
        fun _ _ _ => AttemptOutcome.response 200 (some (Json.obj [])), 0⟩).table
        = some out
      ∧ out.rows.getD 0 [] = [("api_success", some (Json.str "True"))]
      ∧ out.rows.getD 1 [] =
          reprocessRow ((fun (_ _ _ : Nat) =>
              AttemptOutcome.response 200 (some (Json.obj []))) 1)
            [("api_success", some (Json.str "False")),
             ("cnpj_normalizado", some (Json.str "12345678000195"))] := by
  obtain ⟨out, h1, _, _, h4, h5⟩ := C9_retry_only_frame
    ⟨some ⟨["api_success", "cnpj_normalizado"],
        [[("api_success", some (Json.str "True"))],
         [("api_success", some (Json.str "False")),
          ("cnpj_normalizado", some (Json.str "12345678000195"))]]⟩,
      fun _ _ _ => AttemptOutcome.response 200 (some (Json.obj [])), 0⟩
    ⟨["api_success", "cnpj_normalizado"],
      [[("api_success", some (Json.str "True"))],
       [("api_success", some (Json.str "False")),
        ("cnpj_normalizado", some (Json.str "12345678000195"))]]⟩
    rfl (by simp)
  exact ⟨out, h1, h4 0 (by decide) (by decide), h5 1 (by decide) (by decide)⟩

/-! ## Claim C7 -/

lemma retry429_fetchCalls_pos (oracle : Nat → Nat → AttemptOutcome) :
    ∀ (fuel callIdx : Nat), 1 ≤ (retry429 oracle callIdx fuel).fetchCalls := by
  intro fuel
  match fuel with
  | 0 => intro callIdx; simp [retry429]
  | 1 => intro callIdx; simp [retry429]
  | f + 2 =>
    intro callIdx
    simp only [retry429]
    split
    · simp
    · simp

/-- Counterexample for C7: in the retry-only entry point a row whose
identifier normalizes to absent can still trigger an API call.  A
previous run stores invalid rows with an empty `cnpj_normalizado` cell,
which `pd.read_csv` reads back as the float NaN; `pd.isna(nan)` holds,
so the identifier normalizes to absent, yet `bool(nan)` is `True`, so
`if not cnpj:` does not fire and the driver issues a lookup for the
literal string `"nan"`.  Moreover the two entry points do not even share
one invalid-identifier marker: the full run records `"cnpj_invalido"`
while the retry run's invalid branch records `"cnpj_invalido_retry"`. -/
theorem C7_absent_identifier_counterexample :
    normalize_cnpj (some Json.nan) = none
    ∧ (reprocess_failed ⟨some ⟨["api_success", "cnpj_normalizado"],
        [[("api_success", some (Json.str "False")),
          ("cnpj_normalizado", some Json.nan)]]⟩,
      fun _ _ _ => AttemptOutcome.response 200 (some (Json.obj [])), 0⟩).fetchCalls
      = 1
    ∧ (mainRun ⟨some ⟨["cnpj_normalizadoapi"],
        [[("cnpj_normalizadoapi", some (Json.str "123"))]]⟩,
      fun _ _ _ => AttemptOutcome.netError "boom", 0⟩).fetchCalls = 0
    ∧ getCell (((mainRun ⟨some ⟨["cnpj_normalizadoapi"],
          [[("cnpj_normalizadoapi", some (Json.str "123"))]]⟩,
        fun _ _ _ => AttemptOutcome.netError "boom", 0⟩).table.getD
          ⟨[], []⟩).rows.getD 0 []) "api_error"
        = some (Json.str "cnpj_invalido")
    ∧ getCell (((reprocess_failed ⟨some ⟨["api_success"],
          [[("api_success", some (Json.str "False"))]]⟩,
        fun _ _ _ => AttemptOutcome.netError "boom", 0⟩).table.getD
          ⟨[], []⟩).rows.getD 0 []) "api_error"
        = some (Json.str "cnpj_invalido_retry")
    ∧ ("cnpj_invalido" : String) ≠ "cnpj_invalido_retry" :=
  ⟨rfl, rfl, rfl, rfl, rfl, by decide⟩

/-- C7 (amended): in the full run a row whose identifier normalizes to
absent never triggers an API call and is recorded immediately with
error `"cnpj_invalido"`.  In the retry-only run the invalid branch fires
only on a Python-falsy identifier cell (such as `None` from a missing
column), recording error `"cnpj_invalido_retry"` without an API call;
but a NaN identifier cell — the form in which a previous run's invalid
rows read back from the CSV — normalizes to absent while being truthy
in Python, so the driver does run the API lookup for it. -/
theorem C7_invalid_identifier_amended (oracle : Nat → Nat → Nat → AttemptOutcome)
    (st : LoopState) (rst rstNan : ReprocState) (idx idxNan : Nat) (row : Row)
    (hrow : cellFalsy (getCell row "cnpj_normalizado") = true)
    (hrst : cellFalsy (getCell (rst.rows.getD idx []) "cnpj_normalizado") = true)
    (hnan : getCell (rstNan.rows.getD idxNan []) "cnpj_normalizado"
      = some Json.nan) :
    (mainStep oracle st idx row).resultados =
      st.resultados ++ [(idx, invalid_record (getCell row CNPJ_COLUMN_NAME)
        (getCell row "cnpj_normalizado"))]
    ∧ (mainStep oracle st idx row).fetchCalls = st.fetchCalls
    ∧ (mainStep oracle st idx row).httpRequests = st.httpRequests
    ∧ (mainStep oracle st idx row).request_count = st.request_count
    ∧ getCell (invalid_record (getCell row CNPJ_COLUMN_NAME)
        (getCell row "cnpj_normalizado")) "api_error"
        = some (Json.str "cnpj_invalido")
    ∧ (reprocStep oracle rst idx).fetchCalls = rst.fetchCalls
    ∧ (reprocStep oracle rst idx).httpRequests = rst.httpRequests
    ∧ (reprocStep oracle rst idx).rows = rst.rows.set idx
        (setCell (setCell (rst.rows.getD idx []) "api_success"
            (some (Json.bool false)))
          "api_error" (some (Json.str "cnpj_invalido_retry")))
    ∧ normalize_cnpj (getCell (rstNan.rows.getD idxNan []) "cnpj_normalizado")
        = none
    ∧ (reprocStep oracle rstNan idxNan).fetchCalls =
        rstNan.fetchCalls + (lookup_with_429 (oracle idxNan)).fetchCalls
    ∧ 1 ≤ (lookup_with_429 (oracle idxNan)).fetchCalls := by
  have hrst2 : cellFalsy (getCell (rst.rows[idx]?.getD []) "cnpj_normalizado")
      = true := by
    rw [← List.getD_eq_getElem?_getD]; exact hrst
  have hnan2 : cellFalsy (getCell (rstNan.rows[idxNan]?.getD []) "cnpj_normalizado")
      = false := by
    rw [← List.getD_eq_getElem?_getD, hnan]; rfl
  refine ⟨?_, ?_, ?_, ?_, rfl, ?_, ?_, ?_, ?_, ?_, ?_⟩
  · simp [mainStep, hrow]
  · simp [mainStep, hrow]
  · simp [mainStep, hrow]
  · simp [mainStep, hrow]
  · simp [reprocStep, hrst2]
  · simp [reprocStep, hrst2]
  · simp [reprocStep, reprocessRow, hrst2]
  · rw [hnan]; rfl
  · simp [reprocStep, hnan2]
  · exact retry429_fetchCalls_pos (oracle idxNan) 3 0

/-- Witness for C7 (amended): concrete states with a `None` identifier
(full-run invalid record and retry-run invalid branch) and with a NaN
identifier (retry-run API path). -/
theorem C7_invalid_identifier_amended_witness :
    (mainStep (fun _ _ _ => AttemptOutcome.netError "boom")
        ⟨[], 0, 0, 0, 0, 0⟩ 0 [("cnpj_normalizadoapi", some (Json.str "123")),
          ("cnpj_normalizado", none)]).resultados =
      [] ++ [(0, invalid_record
        (getCell [("cnpj_normalizadoapi", some (Json.str "123")),
          ("cnpj_normalizado", none)] CNPJ_COLUMN_NAME)
        (getCell [("cnpj_normalizadoapi", some (Json.str "123")),
          ("cnpj_normalizado", none)] "cnpj_normalizado"))]
    ∧ (reprocStep (fun _ _ _ => AttemptOutcome.netError "boom")
        ⟨[[("api_success", some (Json.str "False"))]], 0, 0, 0, 0, 0⟩ 0).fetchCalls
        = 0
    ∧ (reprocStep (fun _ _ _ => AttemptOutcome.netError "boom")
        ⟨[[("api_success", some (Json.str "False")),
           ("cnpj_normalizado", some Json.nan)]], 0, 0, 0, 0, 0⟩ 0).fetchCalls =
        0 + (lookup_with_429 ((fun (_ _ _ : Nat) =>
          AttemptOutcome.netError "boom") 0)).fetchCalls := by
  have h := C7_invalid_identifier_amended
    (fun _ _ _ => AttemptOutcome.netError "boom")
    ⟨[], 0, 0, 0, 0, 0⟩
    ⟨[[("api_success", some (Json.str "False"))]], 0, 0, 0, 0, 0⟩
    ⟨[[("api_success", some (Json.str "False")),
       ("cnpj_normalizado", some Json.nan)]], 0, 0, 0, 0, 0⟩
    0 0
    [("cnpj_normalizadoapi", some (Json.str "123")), ("cnpj_normalizado", none)]
    (by decide) (by decide) rfl
  exact ⟨h.1, h.2.2.2.2.2.1, h.2.2.2.2.2.2.2.2.2.1⟩

/-! ## Claim C8 -/

/-- Counterexample for C8: the retry-only entry point does not abort
when the configured identifier column is absent from the header — it
checks only for the `api_success` column.  On a table without the
identifier column it runs to completion and even issues an API call. -/
theorem C8_no_identifier_column_check_counterexample :
    (reprocess_failed ⟨some ⟨["api_success", "cnpj_normalizado"],
        [[("api_success", some (Json.str "False")),
          ("cnpj_normalizado", some (Json.str "12345678000195"))]]⟩,
      fun _ _ _ => AttemptOutcome.response 200 (some (Json.obj [])), 0⟩).errorMsg
      = none
    ∧ (reprocess_failed ⟨some ⟨["api_success", "cnpj_normalizado"],
        [[("api_success", some (Json.str "False")),
          ("cnpj_normalizado", some (Json.str "12345678000195"))]]⟩,
      fun _ _ _ => AttemptOutcome.response 200 (some (Json.obj [])), 0⟩).fetchCalls
      = 1
    ∧ CNPJ_COLUMN_NAME ∉ ["api_success", "cnpj_normalizado"] :=
  ⟨rfl, rfl, by decide⟩

/-- C8 (amended): both entry points abort, before processing any row or
issuing any HTTP request, when their file is missing; the full run
additionally aborts when the identifier column is absent from the
header, while the retry-only run aborts when the `api_success` column is
absent (it performs no check on the identifier column). -/
theorem C8_fail_fast_amended (menv : MainEnv) (renv : ReprocEnv) (t u : Table) :
    (menv.inputFile = none →
      (mainRun menv).table = none
      ∧ (mainRun menv).errorMsg = some "FileNotFoundError"
      ∧ (mainRun menv).fetchCalls = 0 ∧ (mainRun menv).httpRequests = 0)
    ∧ (menv.inputFile = some t → CNPJ_COLUMN_NAME ∉ t.columns →
      (mainRun menv).table = none
      ∧ (mainRun menv).errorMsg = some "ValueError"
      ∧ (mainRun menv).fetchCalls = 0 ∧ (mainRun menv).httpRequests = 0)
    ∧ (renv.outputFile = none →
      (reprocess_failed renv).table = none
      ∧ (reprocess_failed renv).errorMsg = some "FileNotFoundError"
      ∧ (reprocess_failed renv).fetchCalls = 0
      ∧ (reprocess_failed renv).httpRequests = 0)
    ∧ (renv.outputFile = some u → "api_success" ∉ u.columns →
      (reprocess_failed renv).table = none
      ∧ (reprocess_failed renv).errorMsg = some "ValueError"
      ∧ (reprocess_failed renv).fetchCalls = 0
      ∧ (reprocess_failed renv).httpRequests = 0) := by
  refine ⟨?_, ?_, ?_, ?_⟩
  · intro h
    refine ⟨?_, ?_, ?_, ?_⟩ <;> simp [mainRun, h]
  · intro h1 h2
    refine ⟨?_, ?_, ?_, ?_⟩ <;> simp [mainRun, h1, h2]
  · intro h
    refine ⟨?_, ?_, ?_, ?_⟩ <;> simp [reprocess_failed, h]
  · intro h1 h2
    refine ⟨?_, ?_, ?_, ?_⟩ <;> simp [reprocess_failed, h1, h2]

/-- Witness for C8 (amended): a missing file and tables lacking the
respective checked columns. -/
theorem C8_fail_fast_amended_witness :
    (mainRun ⟨none, fun _ _ _ => AttemptOutcome.netError "boom", 0⟩).table = none
    ∧ (mainRun ⟨some ⟨["other"], []⟩,
        fun _ _ _ => AttemptOutcome.netError "boom", 0⟩).errorMsg
        = some "ValueError"
    ∧ (reprocess_failed ⟨none, fun _ _ _ => AttemptOutcome.netError "boom", 0⟩).table
        = none
    ∧ (reprocess_failed ⟨some ⟨["other"], []⟩,
        fun _ _ _ => AttemptOutcome.netError "boom", 0⟩).errorMsg
        = some "ValueError" := by
  refine ⟨?_, ?_, ?_, ?_⟩
  · exact ((C8_fail_fast_amended
      ⟨none, fun _ _ _ => AttemptOutcome.netError "boom", 0⟩
      ⟨none, fun _ _ _ => AttemptOutcome.netError "boom", 0⟩
      ⟨["other"], []⟩ ⟨["other"], []⟩).1 rfl).1
  · exact ((C8_fail_fast_amended
      ⟨some ⟨["other"], []⟩, fun _ _ _ => AttemptOutcome.netError "boom", 0⟩
      ⟨none, fun _ _ _ => AttemptOutcome.netError "boom", 0⟩
      ⟨["other"], []⟩ ⟨["other"], []⟩).2.1 rfl (by decide)).2.1
  · exact ((C8_fail_fast_amended
      ⟨none, fun _ _ _ => AttemptOutcome.netError "boom", 0⟩
      ⟨none, fun _ _ _ => AttemptOutcome.netError "boom", 0⟩
      ⟨["other"], []⟩ ⟨["other"], []⟩).2.2.1 rfl).1
  · exact ((C8_fail_fast_amended
      ⟨none, fun _ _ _ => AttemptOutcome.netError "boom", 0⟩
      ⟨some ⟨["other"], []⟩, fun _ _ _ => AttemptOutcome.netError "boom", 0⟩
      ⟨["other"], []⟩ ⟨["other"], []⟩).2.2.2 rfl (by decide)).2.1

/-! ## Claim C10 -/

/-- Counterexample for C10: on a record whose lookup needed two HTTP
requests (a 429 followed by a 200 on the call-site retry), the run's
final request counter is 1 while the number of HTTP requests actually
issued is 2 — the counter grows once per record, not once per request. -/
theorem C10_counter_counterexample :
    (mainRun ⟨some ⟨["cnpj_normalizadoapi"],
        [[("cnpj_normalizadoapi", some (Json.str "12.345.678/0001-95"))]]⟩,
      fun _ c _ => if c = 0 then AttemptOutcome.response 429 none
        else AttemptOutcome.response 200 (some (Json.obj [])), 0⟩).httpRequests = 2
    ∧ (mainRun ⟨some ⟨["cnpj_normalizadoapi"],
        [[("cnpj_normalizadoapi", some (Json.str "12.345.678/0001-95"))]]⟩,
      fun _ c _ => if c = 0 then AttemptOutcome.response 429 none
        else AttemptOutcome.response 200 (some (Json.obj [])), 0⟩).finalCount = 1
    ∧ (1 : Nat) ≠ 2 :=
  ⟨rfl, rfl, by decide⟩

/-- C10 (amended): in both batch drivers the request counter is
incremented exactly once per record that reaches the API path — after
the 429 retry loop — independently of how many HTTP requests the lookup
actually issued for that record. -/
theorem C10_counter_per_record_amended (oracle : Nat → Nat → Nat → AttemptOutcome)
    (st : LoopState) (rst : ReprocState) (idx : Nat) (row : Row)
    (hrow : cellFalsy (getCell row "cnpj_normalizado") = false)
    (hrst : cellFalsy (getCell (rst.rows.getD idx []) "cnpj_normalizado") = false) :
    (mainStep oracle st idx row).request_count =
      (sleep_if_necessary st.request_count st.window_start st.clock).request_count + 1
    ∧ (reprocStep oracle rst idx).request_count =
      (sleep_if_necessary rst.request_count rst.window_start rst.clock).request_count
        + 1 := by
  have hrst2 : cellFalsy (getCell (rst.rows[idx]?.getD []) "cnpj_normalizado")
      = false := by
    rw [← List.getD_eq_getElem?_getD]; exact hrst
  constructor
  · simp [mainStep, hrow]
  · simp [reprocStep, hrst2]

/-- Witness for C10 (amended): concrete states and a valid row. -/
theorem C10_counter_per_record_amended_witness :
    (mainStep (fun _ _ _ => AttemptOutcome.response 200 (some (Json.obj [])))
        ⟨[], 0, 0, 0, 0, 0⟩ 0
        [("cnpj_normalizado", some (Json.str "12345678000195"))]).request_count =
      (sleep_if_necessary 0 0 0).request_count + 1
    ∧ (reprocStep (fun _ _ _ => AttemptOutcome.response 200 (some (Json.obj [])))
        ⟨[[("cnpj_normalizado", some (Json.str "12345678000195"))]],
          0, 0, 0, 0, 0⟩ 0).request_count =
      (sleep_if_necessary 0 0 0).request_count + 1 := by
  exact C10_counter_per_record_amended
    (fun _ _ _ => AttemptOutcome.response 200 (some (Json.obj [])))
    ⟨[], 0, 0, 0, 0, 0⟩
    ⟨[[("cnpj_normalizado", some (Json.str "12345678000195"))]], 0, 0, 0, 0, 0⟩
    0 [("cnpj_normalizado", some (Json.str "12345678000195"))]
    (by decide) (by decide)
